import Mathlib

/-!
Verification of the capacity-management core of the
`temporal-cloud-ops-capacity-modes` repository.

The recommendation engine (`_calculate_recommended_trus` and its helper
`calculate_minimum_charged_aps` in `src/activities/namespace_ops.py`),
the legacy threshold policy of `src/workflows/capacity_management.py`,
the batch evaluation loop `get_all_namespace_metrics`, and the provisioning
activities of `src/activities/provisioning_ops.py` are embedded as
executable Lean definitions.  Python floats are modelled as exact
rationals (`ℚ`); Python `int` as `ℤ`; `math.floor`/`math.ceil` as
`Int.floor`/`Int.ceil`.
-/

/-- Python helper `calculate_minimum_charged_aps(trus)` from
`src/activities/namespace_ops.py`: minimum APS charged for a TRU count
(0 for 0 or 1 TRUs, otherwise `(trus - 1) * 100`). -/
def calculate_minimum_charged_aps (trus : ℤ) : ℤ :=
  if trus = 0 then 0
  else if trus = 1 then 0
  else (trus - 1) * 100

/-- The first two steps of `_calculate_recommended_trus`:
`current_trus = math.floor(action_limit / 500)` followed by the
normalisation `if current_trus <= 1: current_trus = 0` (1 TRU is treated
as equivalent to 0 TRUs). -/
def current_trus_from_limit (action_limit : ℚ) : ℤ :=
  if ⌊action_limit / 500⌋ ≤ 1 then 0 else ⌊action_limit / 500⌋

/-- Python `_calculate_recommended_trus(action_limit, action_count)` from
`src/activities/namespace_ops.py`, with `max_aps_per_tru = 500` and
`min_aps_per_additional_tru = 100` inlined and the current-TRU
normalisation factored into `current_trus_from_limit`.  The Python float
arithmetic (`/`, `* 100`, comparisons) is carried out exactly over `ℚ`. -/
def _calculate_recommended_trus (action_limit action_count : ℚ) : ℤ :=
  if current_trus_from_limit action_limit = 0 then
    if action_count > 500 then max 2 ⌈action_count / 500⌉ else 0
  else
    if action_count / ((current_trus_from_limit action_limit : ℚ) * 500) * 100 ≥ 80 then
      current_trus_from_limit action_limit + 1
    else if action_count < (calculate_minimum_charged_aps (current_trus_from_limit action_limit) : ℚ) then
      if action_count ≤ 500 then 0
      else max 2 (⌊action_count / 100⌋ + 1)
    else
      current_trus_from_limit action_limit

/-- The normalised current TRU count is either `0` or it equals
`⌊action_limit / 500⌋` and is at least `2`. -/
lemma current_trus_from_limit_cases (L : ℚ) :
    current_trus_from_limit L = 0 ∨
      (2 ≤ ⌊L / 500⌋ ∧ current_trus_from_limit L = ⌊L / 500⌋) := by
  unfold current_trus_from_limit
  by_cases h : ⌊L / 500⌋ ≤ 1
  · left; simp [h]
  · right
    constructor
    · omega
    · simp [h]

/-- When the raw floor is at least 2 the normalisation is the identity. -/
lemma current_trus_from_limit_eq (L : ℚ) (h : 2 ≤ ⌊L / 500⌋) :
    current_trus_from_limit L = ⌊L / 500⌋ := by
  unfold current_trus_from_limit
  rw [if_neg (by omega)]

/-- For a provisioned size of at least 2 the helper computes `(t - 1) * 100`. -/
lemma calculate_minimum_charged_aps_eq (t : ℤ) (h : 2 ≤ t) :
    calculate_minimum_charged_aps t = (t - 1) * 100 := by
  unfold calculate_minimum_charged_aps
  rw [if_neg (by omega), if_neg (by omega)]

/-- Shape of the recommendation in the provisioned branch
(`currentUnits = ⌊L / 500⌋ ≥ 2`), with the minimum-charged threshold
written over `ℚ`. -/
lemma recommended_trus_provisioned (L C : ℚ) (h : 2 ≤ ⌊L / 500⌋) :
    _calculate_recommended_trus L C =
      if C / ((⌊L / 500⌋ : ℚ) * 500) * 100 ≥ 80 then ⌊L / 500⌋ + 1
      else if C < ((⌊L / 500⌋ : ℚ) - 1) * 100 then
        if C ≤ 500 then 0 else max 2 (⌊C / 100⌋ + 1)
      else ⌊L / 500⌋ := by
  unfold _calculate_recommended_trus
  rw [current_trus_from_limit_eq L h, if_neg (by omega),
    calculate_minimum_charged_aps_eq _ h]
  have hc : (((⌊L / 500⌋ - 1) * 100 : ℤ) : ℚ) = ((⌊L / 500⌋ : ℚ) - 1) * 100 := by
    push_cast; ring
  rw [hc]

/-- The code's percentage test `(C / M) * 100 >= 80` agrees with the
fractional threshold `C / M ≥ 4/5`. -/
lemma percent_iff_fraction (x : ℚ) : x * 100 ≥ 80 ↔ x ≥ 4 / 5 := by
  constructor <;> intro h <;> linarith

/-- Claim C1: for all non-negative inputs, `_calculate_recommended_trus` never
returns exactly 1 — its result is always 0 or at least 2. -/
theorem recommended_trus_never_one (L C : ℚ) (hL : 0 ≤ L) (hC : 0 ≤ C) :
    _calculate_recommended_trus L C = 0 ∨ 2 ≤ _calculate_recommended_trus L C := by
  rcases current_trus_from_limit_cases L with h0 | ⟨h2, _⟩
  · unfold _calculate_recommended_trus
    rw [if_pos h0]
    by_cases hgt : C > 500
    · right; rw [if_pos hgt]; exact le_max_left _ _
    · left; rw [if_neg hgt]
  · rw [recommended_trus_provisioned L C h2]
    split_ifs with hu hmin hbase
    · right; omega
    · left; rfl
    · right; exact le_max_left _ _
    · right; exact h2

/-- Witness for C1 at `(action_limit, action_count) = (0, 0)`. -/
theorem recommended_trus_never_one_witness :
    _calculate_recommended_trus 0 0 = 0 ∨ 2 ≤ _calculate_recommended_trus 0 0 :=
  recommended_trus_never_one 0 0 (by norm_num) (by norm_num)

/-- Claim C2: in the base/on-demand tier (`⌊limit / 500⌋ ≤ 1`, including
`limit = 0`) the recommendation is 0 whenever the load is at most 500 and
`max 2 ⌈load / 500⌉` whenever the load exceeds 500. -/
theorem base_tier_recommendation (L C : ℚ) (h : ⌊L / 500⌋ ≤ 1) :
    (C ≤ 500 → _calculate_recommended_trus L C = 0) ∧
    (500 < C → _calculate_recommended_trus L C = max 2 ⌈C / 500⌉) := by
  have h0 : current_trus_from_limit L = 0 := by
    unfold current_trus_from_limit; rw [if_pos h]
  constructor
  · intro hle
    unfold _calculate_recommended_trus
    rw [if_pos h0, if_neg (by exact not_lt.mpr hle)]
  · intro hgt
    unfold _calculate_recommended_trus
    rw [if_pos h0, if_pos hgt]

/-- Witness for C2 at `limit = 0`, checked for loads 400 and 750. -/
theorem base_tier_recommendation_witness :
    _calculate_recommended_trus 0 400 = 0 ∧
    _calculate_recommended_trus 0 750 = max 2 ⌈(750 : ℚ) / 500⌉ := by
  have h : ⌊(0 : ℚ) / 500⌋ ≤ 1 := by norm_num
  exact ⟨(base_tier_recommendation 0 400 h).1 (by norm_num),
    (base_tier_recommendation 0 750 h).2 (by norm_num)⟩

/-- Claim C3: with `currentUnits = ⌊limit / 500⌋ ≥ 2` and utilization
`load / (currentUnits * 500)` at least 4/5 (= 0.80, ties included), the
recommendation is exactly `currentUnits + 1`. -/
theorem scale_up_adds_exactly_one (L C : ℚ) (h2 : 2 ≤ ⌊L / 500⌋)
    (hu : C / ((⌊L / 500⌋ : ℚ) * 500) ≥ 4 / 5) :
    _calculate_recommended_trus L C = ⌊L / 500⌋ + 1 := by
  rw [recommended_trus_provisioned L C h2,
    if_pos ((percent_iff_fraction _).mpr hu)]

/-- Witness for C3 at `limit = 1000` (2 units), `load = 900` (90%). -/
theorem scale_up_adds_exactly_one_witness :
    _calculate_recommended_trus 1000 900 = ⌊(1000 : ℚ) / 500⌋ + 1 := by
  have h2 : 2 ≤ ⌊(1000 : ℚ) / 500⌋ := by norm_num
  have hu : (900 : ℚ) / ((⌊(1000 : ℚ) / 500⌋ : ℚ) * 500) ≥ 4 / 5 := by norm_num
  exact scale_up_adds_exactly_one 1000 900 h2 hu

/-- Claim C4: with `currentUnits = ⌊limit / 500⌋ ≥ 2`, utilization below 4/5 and
load strictly below the minimum charged load `(currentUnits - 1) * 100`,
the recommendation is 0 when the load is at most 500 and otherwise
`max 2 (⌊load / 100⌋ + 1)` in a single step. -/
theorem scale_down_jumps_to_optimal (L C : ℚ) (h2 : 2 ≤ ⌊L / 500⌋)
    (hu : C / ((⌊L / 500⌋ : ℚ) * 500) < 4 / 5)
    (hmin : C < ((⌊L / 500⌋ : ℚ) - 1) * 100) :
    (C ≤ 500 → _calculate_recommended_trus L C = 0) ∧
    (500 < C → _calculate_recommended_trus L C = max 2 (⌊C / 100⌋ + 1)) := by
  have hnu : ¬ C / ((⌊L / 500⌋ : ℚ) * 500) * 100 ≥ 80 := by
    intro h
    exact absurd ((percent_iff_fraction _).mp h) (not_le.mpr hu)
  constructor
  · intro hle
    rw [recommended_trus_provisioned L C h2, if_neg hnu, if_pos hmin, if_pos hle]
  · intro hgt
    rw [recommended_trus_provisioned L C h2, if_neg hnu, if_pos hmin,
      if_neg (by exact not_le.mpr hgt)]

/-- Witness for C4 at `limit = 5000` (10 units, minimum charged 900),
checked for loads 150 (→ 0) and 700 (→ max 2 (⌊700/100⌋+1) = 8). -/
theorem scale_down_jumps_to_optimal_witness :
    _calculate_recommended_trus 5000 150 = 0 ∧
    _calculate_recommended_trus 5000 700 = max 2 (⌊(700 : ℚ) / 100⌋ + 1) := by
  have h2 : 2 ≤ ⌊(5000 : ℚ) / 500⌋ := by norm_num
  constructor
  · exact (scale_down_jumps_to_optimal 5000 150 h2 (by norm_num) (by norm_num)).1
      (by norm_num)
  · exact (scale_down_jumps_to_optimal 5000 700 h2 (by norm_num) (by norm_num)).2
      (by norm_num)

/-- Claim C5: with `currentUnits = ⌊limit / 500⌋ ≥ 2`, utilization strictly below
4/5 and load at least the minimum charged load (tie included), the
recommendation is `currentUnits` unchanged. -/
theorem efficient_zone_unchanged (L C : ℚ) (h2 : 2 ≤ ⌊L / 500⌋)
    (hu : C / ((⌊L / 500⌋ : ℚ) * 500) < 4 / 5)
    (hmin : ((⌊L / 500⌋ : ℚ) - 1) * 100 ≤ C) :
    _calculate_recommended_trus L C = ⌊L / 500⌋ := by
  have hnu : ¬ C / ((⌊L / 500⌋ : ℚ) * 500) * 100 ≥ 80 := by
    intro h
    exact absurd ((percent_iff_fraction _).mp h) (not_le.mpr hu)
  rw [recommended_trus_provisioned L C h2, if_neg hnu,
    if_neg (by exact not_lt.mpr hmin)]

/-- Witness for C5 at `limit = 2500` (5 units), `load = 400` exactly on the
minimum charged boundary. -/
theorem efficient_zone_unchanged_witness :
    _calculate_recommended_trus 2500 400 = ⌊(2500 : ℚ) / 500⌋ :=
  efficient_zone_unchanged 2500 400 (by norm_num) (by norm_num) (by norm_num)

/-- Claim C10: the division `action_count / max_capacity` is only reached after
the `current_trus = 0` branch has returned, and at that point
`max_capacity = current_trus * 500 ≥ 1000`; in particular
`action_limit = 0` falls in the zero branch and is safe. -/
theorem division_reached_only_when_capacity_large (L : ℚ) (hL : 0 ≤ L) :
    (current_trus_from_limit L = 0 ∨
      1000 ≤ (current_trus_from_limit L : ℚ) * 500) ∧
    current_trus_from_limit 0 = 0 := by
  constructor
  · rcases current_trus_from_limit_cases L with h0 | ⟨h2, heq⟩
    · exact Or.inl h0
    · right
      rw [heq]
      have : (2 : ℚ) ≤ (⌊L / 500⌋ : ℚ) := by exact_mod_cast h2
      linarith
  · unfold current_trus_from_limit
    norm_num

/-- Witness for C10 at `action_limit = 2500`. -/
theorem division_reached_only_when_capacity_large_witness :
    ((current_trus_from_limit 2500 = 0 ∨
      1000 ≤ (current_trus_from_limit 2500 : ℚ) * 500) ∧
    current_trus_from_limit 0 = 0) :=
  division_reached_only_when_capacity_large 2500 (by norm_num)

/-! ## Data model (`src/models/types.py`) -/

/-- Python enum `ProvisioningState`. -/
inductive ProvisioningState
  | ENABLED
  | DISABLED
  | UNKNOWN
deriving DecidableEq

/-- Python dataclass `NamespaceInfo` (the `region` field is not used by the
decision logic and is elided). -/
structure NamespaceInfo where
  name : String
  provisioning_state : ProvisioningState
  current_tru_count : Option ℤ
deriving DecidableEq

/-- Python dataclass `NamespaceMetrics`. -/
structure NamespaceMetrics where
  name : String
  actions_per_hour : ℤ
  is_throttled : Bool
  throttle_percentage : ℚ
deriving DecidableEq

/-- Python dataclass `ActionDecision` (the free-text `reason` field, which
only interpolates the numbers already present in `metrics`, is elided). -/
structure ActionDecision where
  name : String
  action : String
  current_state : ProvisioningState
  metrics : Option NamespaceMetrics
  tru_count : Option ℤ
deriving DecidableEq

/-- Python dataclass `NamespaceRecommendation`. -/
structure NamespaceRecommendation where
  name : String
  action_limit : ℚ
  action_count : ℚ
  recommended_trus : ℤ
  current_capacity_mode : String
  current_trus : Option ℤ
  recommended_capacity_mode : String
deriving DecidableEq

/-- Python dataclass `CapacityManagementInput` from
`src/workflows/capacity_management.py`. -/
structure CapacityManagementInput where
  default_tru_count : ℤ
  min_actions_threshold : ℤ
  dry_run : Bool
deriving DecidableEq

/-! ## Legacy threshold policy (`src/workflows/capacity_management.py`)

Step 2 of `CapacityManagementWorkflow.run`: for a namespace with
provisioning ENABLED, disable when `actions_per_hour` is strictly below
`min_actions_threshold`, otherwise no action.  Step 3: for a namespace
with provisioning DISABLED, enable with `default_tru_count` TRUs when the
metrics report throttling, otherwise no action. -/

/-- Decision taken in the loop over namespaces with provisioning enabled. -/
def decide_enabled (input : CapacityManagementInput) (ns : NamespaceInfo)
    (m : NamespaceMetrics) : ActionDecision :=
  if m.actions_per_hour < input.min_actions_threshold then
    { name := ns.name, action := "disable",
      current_state := ns.provisioning_state, metrics := some m,
      tru_count := none }
  else
    { name := ns.name, action := "none",
      current_state := ns.provisioning_state, metrics := some m,
      tru_count := none }

/-- Decision taken in the loop over namespaces with provisioning disabled. -/
def decide_disabled (input : CapacityManagementInput) (ns : NamespaceInfo)
    (m : NamespaceMetrics) : ActionDecision :=
  if m.is_throttled then
    { name := ns.name, action := "enable",
      current_state := ns.provisioning_state, metrics := some m,
      tru_count := some input.default_tru_count }
  else
    { name := ns.name, action := "none",
      current_state := ns.provisioning_state, metrics := some m,
      tru_count := none }

/-- The decision list accumulated by `CapacityManagementWorkflow.run` on a
fault-free pass: the ENABLED namespaces are examined first, then the
DISABLED ones, each paired with its own metrics from `check_throttling`. -/
def capacity_decisions (input : CapacityManagementInput)
    (pairs : List (NamespaceInfo × NamespaceMetrics)) : List ActionDecision :=
  (pairs.filter (fun p => p.1.provisioning_state == ProvisioningState.ENABLED)).map
      (fun p => decide_enabled input p.1 p.2)
    ++ (pairs.filter (fun p => p.1.provisioning_state == ProvisioningState.DISABLED)).map
      (fun p => decide_disabled input p.1 p.2)

/-- Claim C6: in the legacy threshold policy, an ENABLED namespace is disabled
exactly when its own `actions_per_hour` is strictly below
`min_actions_threshold` (otherwise no action), and a DISABLED namespace is
enabled with the configured `default_tru_count` exactly when its own
metrics report throttling (otherwise no action); the decision recorded in
the batch for a namespace is the per-namespace decision computed from that
namespace's own state and metrics alone. -/
theorem legacy_threshold_policy (input : CapacityManagementInput)
    (ns : NamespaceInfo) (m : NamespaceMetrics) :
    ((decide_enabled input ns m).action = "disable" ↔
        m.actions_per_hour < input.min_actions_threshold) ∧
    (input.min_actions_threshold ≤ m.actions_per_hour →
        (decide_enabled input ns m).action = "none") ∧
    ((decide_disabled input ns m).action = "enable" ↔ m.is_throttled = true) ∧
    (m.is_throttled = true →
        (decide_disabled input ns m).tru_count = some input.default_tru_count) ∧
    (m.is_throttled = false → (decide_disabled input ns m).action = "none") ∧
    (∀ pairs : List (NamespaceInfo × NamespaceMetrics),
      (ns, m) ∈ pairs → ns.provisioning_state = ProvisioningState.ENABLED →
        decide_enabled input ns m ∈ capacity_decisions input pairs) ∧
    (∀ pairs : List (NamespaceInfo × NamespaceMetrics),
      (ns, m) ∈ pairs → ns.provisioning_state = ProvisioningState.DISABLED →
        decide_disabled input ns m ∈ capacity_decisions input pairs) := by
  refine ⟨?_, ?_, ?_, ?_, ?_, ?_, ?_⟩
  · unfold decide_enabled
    split_ifs with h <;> simp [h]
  · intro h
    unfold decide_enabled
    rw [if_neg (by exact not_lt.mpr h)]
  · unfold decide_disabled
    cases hth : m.is_throttled <;> simp [hth]
  · intro h
    unfold decide_disabled
    rw [if_pos h]
  · intro h
    unfold decide_disabled
    rw [if_neg (by simp [h])]
  · intro pairs hmem hstate
    unfold capacity_decisions
    refine List.mem_append_left _ ?_
    exact List.mem_map.mpr ⟨(ns, m), List.mem_filter.mpr ⟨hmem, by simp [hstate]⟩, rfl⟩
  · intro pairs hmem hstate
    unfold capacity_decisions
    refine List.mem_append_right _ ?_
    exact List.mem_map.mpr ⟨(ns, m), List.mem_filter.mpr ⟨hmem, by simp [hstate]⟩, rfl⟩

/-- Witness for C6: a concrete ENABLED namespace at 50 actions per hour
against threshold 100 is decided "disable". -/
theorem legacy_threshold_policy_witness :
    (decide_enabled ⟨5, 100, false⟩
      ⟨"ns1", ProvisioningState.ENABLED, some 5⟩ ⟨"ns1", 50, false, 0⟩).action =
      "disable" :=
  (legacy_threshold_policy ⟨5, 100, false⟩
    ⟨"ns1", ProvisioningState.ENABLED, some 5⟩ ⟨"ns1", 50, false, 0⟩).1.mpr
    (by decide)

/-! ## Batch evaluation loop (`get_all_namespace_metrics` in
`src/activities/namespace_ops.py`)

The bulk metrics snapshot is a list of `(namespace, action_limit,
action_count)` triples; the per-namespace current-state lookup is a
function returning `Except Unit (Option NamespaceInfo)` — `Except.error`
models an exception raised by the Cloud Ops call, `Except.ok none` models
a namespace that is not found. -/

/-- The current capacity mode and TRU count the loop records for one
namespace, tracking the try/except around `get_namespace_info`: on an
exception or a missing namespace the mode defaults to "on-demand" with no
unit count. -/
def current_mode_of_lookup (r : Except Unit (Option NamespaceInfo)) :
    String × Option ℤ :=
  match r with
  | Except.ok (some info) =>
      if info.provisioning_state = ProvisioningState.ENABLED then
        ("provisioned", info.current_tru_count)
      else ("on-demand", none)
  | Except.ok none => ("on-demand", none)
  | Except.error _ => ("on-demand", none)

/-- The `NamespaceRecommendation` built for one namespace of the snapshot
inside the loop of `get_all_namespace_metrics`. -/
def recommend_one (lookup : String → Except Unit (Option NamespaceInfo))
    (name : String) (action_limit action_count : ℚ) : NamespaceRecommendation :=
  { name := name
    action_limit := action_limit
    action_count := action_count
    recommended_trus := _calculate_recommended_trus action_limit action_count
    current_capacity_mode := (current_mode_of_lookup (lookup name)).1
    current_trus := (current_mode_of_lookup (lookup name)).2
    recommended_capacity_mode :=
      if _calculate_recommended_trus action_limit action_count = 0 then
        "on-demand"
      else "provisioned" }

/-- Python `get_all_namespace_metrics`: filter the snapshot by the
allow/deny predicate and build one recommendation per remaining namespace;
every namespace is processed regardless of the outcome of its own
current-state lookup. -/
def get_all_namespace_metrics (managed : String → Bool)
    (lookup : String → Except Unit (Option NamespaceInfo))
    (snapshot : List (String × ℚ × ℚ)) : List NamespaceRecommendation :=
  (snapshot.filter (fun e => managed e.1)).map
    (fun e => recommend_one lookup e.1 e.2.1 e.2.2)

/-- Claim C7: the batch covers exactly the managed namespaces of the snapshot;
each managed namespace contributes its recommendation to the result, and
when its state lookup raises or finds nothing, its record defaults to
current mode "on-demand" with no current unit count while its
recommendation is still computed — one namespace's lookup failure never
removes it (or any other namespace) from the batch. -/
theorem batch_survives_state_fetch_failure (managed : String → Bool)
    (lookup : String → Except Unit (Option NamespaceInfo))
    (snapshot : List (String × ℚ × ℚ)) :
    (get_all_namespace_metrics managed lookup snapshot).length =
      (snapshot.filter (fun e => managed e.1)).length ∧
    ∀ e ∈ snapshot, managed e.1 = true →
      recommend_one lookup e.1 e.2.1 e.2.2 ∈
        get_all_namespace_metrics managed lookup snapshot ∧
      ((lookup e.1 = Except.error () ∨ lookup e.1 = Except.ok none) →
        (recommend_one lookup e.1 e.2.1 e.2.2).current_capacity_mode =
          "on-demand" ∧
        (recommend_one lookup e.1 e.2.1 e.2.2).current_trus = none ∧
        (recommend_one lookup e.1 e.2.1 e.2.2).recommended_trus =
          _calculate_recommended_trus e.2.1 e.2.2) := by
  constructor
  · unfold get_all_namespace_metrics
    exact List.length_map _ _
  · intro e hmem hman
    constructor
    · unfold get_all_namespace_metrics
      exact List.mem_map.mpr ⟨e, List.mem_filter.mpr ⟨hmem, hman⟩, rfl⟩
    · intro hfail
      have hdef : current_mode_of_lookup (lookup e.1) = ("on-demand", none) := by
        rcases hfail with h | h <;> rw [h] <;> rfl
      refine ⟨?_, ?_, rfl⟩
      · unfold recommend_one
        rw [hdef]
      · unfold recommend_one
        rw [hdef]

/-- Witness for C7: a one-namespace snapshot whose state lookup raises is
still fully processed, with defaulted current mode. -/
theorem batch_survives_state_fetch_failure_witness :
    recommend_one (fun _ => Except.error ()) "ns1" 0 0 ∈
      get_all_namespace_metrics (fun _ => true) (fun _ => Except.error ())
        [("ns1", 0, 0)] ∧
    (recommend_one (fun _ => Except.error ()) "ns1" 0 0).current_capacity_mode =
      "on-demand" := by
  have h := (batch_survives_state_fetch_failure (fun _ => true)
    (fun _ => Except.error ()) [("ns1", 0, 0)]).2 ("ns1", 0, 0)
    (by simp) rfl
  exact ⟨h.1, (h.2 (Or.inl rfl)).1⟩

/-! ## Provisioning activities (`src/activities/provisioning_ops.py`)

Each activity re-reads the namespace's current provisioned TRU count from
the control plane before acting; that observed value is passed here as the
`current_tru_count` argument (`none` models the JSON `currentValue` being
absent, i.e. provisioning currently off).  The result records whether the
call reported success and whether a mutating control-plane request was
issued. -/

/-- Outcome of one provisioning activity. -/
structure OpResult where
  success : Bool
  control_plane_call : Bool
deriving DecidableEq

/-- Python `enable_provisioning(namespace, tru_count)`: in dry-run mode
log and return `True`; otherwise skip the mutating call when the re-read
TRU count already equals the target, else issue it. -/
def enable_provisioning (dry_run_mode : Bool) (current_tru_count : Option ℤ)
    (tru_count : ℤ) : OpResult :=
  if dry_run_mode then ⟨true, false⟩
  else if current_tru_count = some tru_count then ⟨true, false⟩
  else ⟨true, true⟩

/-- Python `disable_provisioning(namespace)`: in dry-run mode log and
return `True`; otherwise skip the mutating call when provisioning is
already off (no `currentValue`), else issue it. -/
def disable_provisioning (dry_run_mode : Bool)
    (current_tru_count : Option ℤ) : OpResult :=
  if dry_run_mode then ⟨true, false⟩
  else if current_tru_count = none then ⟨true, false⟩
  else ⟨true, true⟩

/-- Claim C8: both provisioning operations are idempotent — when the re-read
state already equals the target (enable: current TRU count equals the
requested count; disable: provisioning off), no mutating control-plane
call is issued and the operation reports success. -/
theorem provisioning_ops_idempotent (cur : Option ℤ) (n : ℤ) :
    (cur = some n →
      enable_provisioning false cur n = ⟨true, false⟩) ∧
    (cur = none →
      disable_provisioning false cur = ⟨true, false⟩) := by
  constructor
  · intro h
    unfold enable_provisioning
    rw [if_neg (by simp), if_pos h]
  · intro h
    unfold disable_provisioning
    rw [if_neg (by simp), if_pos h]

/-- Witness for C8: enabling at 5 TRUs when already at 5, and disabling
when already disabled. -/
theorem provisioning_ops_idempotent_witness :
    enable_provisioning false (some 5) 5 = ⟨true, false⟩ ∧
    disable_provisioning false none = ⟨true, false⟩ :=
  ⟨(provisioning_ops_idempotent (some 5) 5).1 rfl,
    (provisioning_ops_idempotent none 5).2 rfl⟩

/-! ## Dry-run behaviour of a whole workflow pass -/

/-- Side effect attempted for one ENABLED namespace in step 2 of
`CapacityManagementWorkflow.run`: `disable_provisioning` is invoked
exactly when the decision is to disable. -/
def apply_enabled (dry : Bool) (cur_state : String → Option ℤ)
    (input : CapacityManagementInput)
    (p : NamespaceInfo × NamespaceMetrics) : Option OpResult :=
  if p.2.actions_per_hour < input.min_actions_threshold then
    some (disable_provisioning dry (cur_state p.1.name))
  else none

/-- Side effect attempted for one DISABLED namespace in step 3 of
`CapacityManagementWorkflow.run`: `enable_provisioning` with
`default_tru_count` is invoked exactly when the namespace is throttled. -/
def apply_disabled (dry : Bool) (cur_state : String → Option ℤ)
    (input : CapacityManagementInput)
    (p : NamespaceInfo × NamespaceMetrics) : Option OpResult :=
  if p.2.is_throttled then
    some (enable_provisioning dry (cur_state p.1.name) input.default_tru_count)
  else none

/-- A fault-free pass of the workflow: the accumulated decision list and,
per examined namespace, the provisioning-activity outcome (`none` when no
action was required).  `dry` is the dry-run flag consulted by the
activities. -/
def run_capacity_management (dry : Bool) (input : CapacityManagementInput)
    (pairs : List (NamespaceInfo × NamespaceMetrics))
    (cur_state : String → Option ℤ) :
    List ActionDecision × List (Option OpResult) :=
  (capacity_decisions input pairs,
    (pairs.filter (fun p => p.1.provisioning_state == ProvisioningState.ENABLED)).map
        (apply_enabled dry cur_state input)
      ++ (pairs.filter (fun p => p.1.provisioning_state == ProvisioningState.DISABLED)).map
        (apply_disabled dry cur_state input))

/-- Claim C9: with the dry-run flag set, every `enable_provisioning` and
`disable_provisioning` call performs no control-plane mutation and reports
success, and the decision list of a dry run is identical to that of a
non-dry run over the same namespaces and metrics. -/
theorem dry_run_no_side_effects (input : CapacityManagementInput)
    (pairs : List (NamespaceInfo × NamespaceMetrics))
    (cur_state : String → Option ℤ) :
    (run_capacity_management true input pairs cur_state).1 =
      (run_capacity_management false input pairs cur_state).1 ∧
    (∀ cur n, enable_provisioning true cur n = ⟨true, false⟩ ∧
      disable_provisioning true cur = ⟨true, false⟩) ∧
    (∀ r ∈ (run_capacity_management true input pairs cur_state).2,
      ∀ op, r = some op → op.success = true ∧ op.control_plane_call = false) := by
  refine ⟨rfl, fun cur n => ⟨rfl, rfl⟩, ?_⟩
  intro r hr op hop
  rcases List.mem_append.mp hr with h | h <;>
    obtain ⟨p, hp, rfl⟩ := List.mem_map.mp h
  · unfold apply_enabled at hop
    by_cases hc : p.2.actions_per_hour < input.min_actions_threshold
    · rw [if_pos hc] at hop
      have : op = disable_provisioning true (cur_state p.1.name) :=
        (Option.some.injEq _ _ ▸ hop).symm
      rw [this]
      exact ⟨rfl, rfl⟩
    · rw [if_neg hc] at hop
      exact absurd hop (by simp)
  · unfold apply_disabled at hop
    by_cases hc : p.2.is_throttled
    · rw [if_pos hc] at hop
      have : op = enable_provisioning true (cur_state p.1.name)
          input.default_tru_count :=
        (Option.some.injEq _ _ ▸ hop).symm
      rw [this]
      exact ⟨rfl, rfl⟩
    · rw [if_neg (by simp [hc])] at hop
      exact absurd hop (by simp)

/-- Witness for C9: the dry-run activities at a concrete state mutate
nothing and return success. -/
theorem dry_run_no_side_effects_witness :
    enable_provisioning true (some 3) 5 = ⟨true, false⟩ ∧
    disable_provisioning true (some 3) = ⟨true, false⟩ :=
  (dry_run_no_side_effects ⟨5, 100, true⟩ [] (fun _ => none)).2.1 (some 3) 5
